import Mathlib

/-!
Shallow embedding of the transit-itinerary interpreter of
`src/src/tools/TransitTool.ts` (`TransitApiTool.execute`, lines 84-229),
together with theorems settling the spec claims about it.

Modelling conventions, matching JavaScript semantics of the source:
- every upstream JSON field that may be absent is an `Option`;
- JS truthiness on a string (`if (x)`) is `x` present and nonempty;
- JS truthiness on a number is `x` present and nonzero
  (the upstream values are nonnegative integers, modelled as `Nat`);
- a template literal interpolating an absent value prints the literal
  text "undefined" (`jsStr` / `jsNum`), while `Array.prototype.join`
  coerces an absent element to the empty string;
- `x ?? 0` and `x || 0` on these numeric fields are `Option.getD 0`;
- nested accesses such as `response.data?.metaData?.plan`,
  `best.fare?.regular?.totalFare`, `leg.start?.name` and
  `leg.passStopList && leg.passStopList.stationList` are collapsed into a
  single `Option` (absent whenever any level is absent);
- `Math.round (t / 60)` on a `Nat` `t` is `(t + 30) / 60` in `Nat`
  division: for integer `t` the quotient `t / 60` is at distance at least
  `1 / 60` from any half-integer except exact ties, which `Math.round`
  sends upward, and IEEE division is exact enough that the double rounds
  the same way for all inputs in range;
- `(m / 1000).toFixed(1)` is rendered from the exact rational `m / 1000`
  as nearest tenth with ties upward (`kmFix1`); the JS double can differ
  at decimal ties such as `m = 1150`, which no claim exercises.
-/

namespace TransitTool

/-- `Lane` entry of a transit leg: `{route, type, service}` from
`leg.Lane[i]` in the upstream JSON (source lines 157-172). -/
structure Lane where
  route : Option String
  type : Option String
  service : Option Nat
deriving DecidableEq, Repr

/-- One leg of an itinerary, the fields of `leg` that
`TransitApiTool.execute` reads (source lines 117-191).
`startName`/`endName` collapse `leg.start?.name` / `leg.end?.name`;
`steps` is the list of `step.description`; `passStops` collapses
`leg.passStopList.stationList` to the list of `stationName`s. -/
structure Leg where
  mode : Option String
  route : Option String
  distance : Option Nat
  sectionTime : Option Nat
  startName : Option String
  endName : Option String
  steps : Option (List (Option String))
  lane : Option (List Lane)
  passStops : Option (List (Option String))
deriving DecidableEq, Repr

/-- The fields of `best = plan.itineraries[0]` that the source reads
(lines 97-116). `fare` collapses `best.fare?.regular?.totalFare`. -/
structure Itinerary where
  totalTime : Option Nat
  transferCount : Option Nat
  totalDistance : Option Nat
  totalWalkDistance : Option Nat
  totalWalkTime : Option Nat
  fare : Option Nat
  legs : Option (List Leg)
deriving DecidableEq, Repr

/-- `response.data?.metaData?.plan`, collapsed: `plan` holds the
`itineraries` array when present (source lines 84-85). -/
structure Plan where
  itineraries : Option (List Itinerary)
deriving DecidableEq, Repr

/-- The raw directions response, reduced to the single path the source
reads: `metaData.plan` (source line 84). -/
structure RawResponse where
  plan : Option Plan
deriving DecidableEq, Repr

/-- JS truthiness of a possibly-absent string: present and nonempty. -/
def strTruthy : Option String → Bool
  | some s => s != ""
  | none => false

/-- Template-literal interpolation of a possibly-absent string:
an absent value prints as the text "undefined". -/
def jsStr : Option String → String
  | some s => s
  | none => "undefined"

/-- Template-literal interpolation of a possibly-absent number:
an absent value prints as the text "undefined". -/
def jsNum : Option Nat → String
  | some n => toString n
  | none => "undefined"

/-- `Math.round (t / 60)` for a natural number of seconds `t`
(source lines 99, 111, 134, 153). -/
def roundDiv60 (t : Nat) : Nat := (t + 30) / 60

/-- `(m / 1000).toFixed(1)` for a natural number of meters `m`
(source line 105), evaluated on the exact rational `m / 1000`:
nearest multiple of one tenth, ties upward, printed with exactly one
digit after the decimal point. -/
def kmFix1 (m : Nat) : String :=
  let tenths := (m + 50) / 100
  toString (tenths / 10) ++ "." ++ toString (tenths % 10)

/-- `durationMin` of source lines 98-100:
`best.totalTime ? Math.round(best.totalTime / 60) : undefined`. -/
def durationMin (best : Itinerary) : Option Nat :=
  match best.totalTime with
  | some t => if t = 0 then none else some (roundDiv60 t)
  | none => none

/-- `distanceKm` of source lines 104-106:
`best.totalDistance ? (best.totalDistance / 1000).toFixed(1) : undefined`. -/
def distanceKmStr (best : Itinerary) : Option String :=
  match best.totalDistance with
  | some m => if m = 0 then none else some (kmFix1 m)
  | none => none

/-- `walkTimeMin` of source lines 110-112:
`best.totalWalkTime ? Math.round(best.totalWalkTime / 60) : undefined`. -/
def walkTimeMin (best : Itinerary) : Option Nat :=
  match best.totalWalkTime with
  | some t => if t = 0 then none else some (roundDiv60 t)
  | none => none

/-- Short label of a leg in the route-summary line (source lines 117-123):
walk token for WALK legs, else the route when truthy, else the mode
(`join` coerces an absent mode to the empty string). -/
def legShort (leg : Leg) : String :=
  if leg.mode = some "WALK" then "도보"
  else if strTruthy leg.route then leg.route.getD ""
  else leg.mode.getD ""

/-- One line of the walk-step list (source lines 140-145):
`    · ${step.description || ''}`. -/
def stepLine (d : Option String) : String := "    · " ++ d.getD ""

/-- The walk-step block (source lines 139-147): rendered whenever `steps`
is present (even empty), followed by a newline. -/
def stepsBlock : Option (List (Option String)) → String
  | some steps => String.intercalate "\n" (steps.map stepLine) ++ "\n"
  | none => ""

/-- `if (lane.route) desc += ...` (source lines 164-165). -/
def laneRouteLine (lane : Lane) : String :=
  if strTruthy lane.route then "    - 노선: " ++ lane.route.getD "" ++ "\n" else ""

/-- `if (lane.type) desc += ...` (source lines 166-167). -/
def laneTypeLine (lane : Lane) : String :=
  if strTruthy lane.type then "    - 노선타입: " ++ lane.type.getD "" ++ "\n" else ""

/-- `if (lane.service !== undefined) desc += ...` (source lines 168-171):
the status literal is 운행중 when `service === 1`, else 운행종료. -/
def laneServiceLine (lane : Lane) : String :=
  match lane.service with
  | some s => if s = 1 then "    - 운행여부: 운행중\n" else "    - 운행여부: 운행종료\n"
  | none => ""

/-- The lane block of a transit leg (source lines 158-172): rendered only
when `leg.Lane` is a nonempty array, and only from its first entry. -/
def laneBlock : Option (List Lane) → String
  | some (lane :: _) => laneRouteLine lane ++ laneTypeLine lane ++ laneServiceLine lane
  | some [] => ""
  | none => ""

/-- The passed-stations block (source lines 174-187): station names are
taken from `stationList`, filtered by truthiness, and the line is
rendered only when at least one name survives. -/
def stationBlock : Option (List (Option String)) → String
  | some stations =>
      let names := (stations.map (fun s => s.getD "")).filter (fun s => s != "")
      if names = [] then ""
      else "    - 경유지: " ++ String.intercalate " → " names ++ "\n"
  | none => ""

/-- The walk start line (source line 136): `startName` is
`leg.start?.name ? leg.start.name : ''`, the line is rendered when it is
truthy, that is nonempty. -/
def walkStartLine (leg : Leg) : String :=
  if leg.startName.getD "" ≠ "" then "    - 출발: " ++ leg.startName.getD "" ++ "\n" else ""

/-- The walk end line (source line 137). -/
def walkEndLine (leg : Leg) : String :=
  if leg.endName.getD "" ≠ "" then "    - 도착: " ++ leg.endName.getD "" ++ "\n" else ""

/-- The WALK branch of the per-leg description after the `[n] ` marker
(source lines 132-147). -/
def walkTail (leg : Leg) : String :=
  "도보 (" ++ jsNum leg.distance ++ "m, 약 "
    ++ toString (roundDiv60 (leg.sectionTime.getD 0)) ++ "분)\n"
    ++ walkStartLine leg ++ walkEndLine leg ++ stepsBlock leg.steps

/-- `(${leg.route})` when `leg.route` is truthy (source line 151). -/
def routePart (leg : Leg) : String :=
  if strTruthy leg.route then "(" ++ leg.route.getD "" ++ ")" else ""

/-- The boarding line of a transit leg (source line 155). -/
def boardLine (leg : Leg) : String :=
  if leg.startName.getD "" ≠ "" then "    - 승차: " ++ leg.startName.getD "" ++ "\n" else ""

/-- The alighting line of a transit leg (source line 156). -/
def alightLine (leg : Leg) : String :=
  if leg.endName.getD "" ≠ "" then "    - 하차: " ++ leg.endName.getD "" ++ "\n" else ""

/-- The head of the transit branch: mode, optional route parenthetical,
distance, minutes, boarding and alighting lines (source lines 150-156). -/
def transitFront (leg : Leg) : String :=
  jsStr leg.mode ++ routePart leg ++ " - " ++ jsNum leg.distance ++ "m, 약 "
    ++ toString (roundDiv60 (leg.sectionTime.getD 0)) ++ "분\n"
    ++ boardLine leg ++ alightLine leg

/-- The full transit branch after the `[n] ` marker
(source lines 150-187). -/
def transitTail (leg : Leg) : String :=
  transitFront leg ++ laneBlock leg.lane ++ stationBlock leg.passStops

/-- The per-leg description before the final `.trim()`
(source lines 127-189, the value of `desc`). -/
def legDesc (idx : Nat) (leg : Leg) : String :=
  "[" ++ toString (idx + 1) ++ "] "
    ++ (if leg.mode = some "WALK" then walkTail leg else transitTail leg)

/-- The whitespace characters that JS `.trim()` strips, restricted to
those the report can contain. -/
def isWS (c : Char) : Bool := c = ' ' || c = Char.ofNat 10 || c = Char.ofNat 9 || c = Char.ofNat 13

/-- JS `String.prototype.trim`: whitespace removed from both ends. -/
def jsTrim (s : String) : String :=
  String.mk (((s.data.dropWhile isWS).reverse.dropWhile isWS).reverse)

/-- One rendered leg entry: `desc.trim()` (source line 189). -/
def renderLeg (idx : Nat) (leg : Leg) : String := jsTrim (legDesc idx leg)

/-- The indexed map over `legs` building the detail entries
(source lines 126-190). -/
def renderLegs : Nat → List Leg → List String
  | _, [] => []
  | i, leg :: rest => renderLeg i leg :: renderLegs (i + 1) rest

/-- `stops`, the route-summary line body (source lines 117-123). -/
def routeSummary (legs : List Leg) : String :=
  String.intercalate " → " (legs.map legShort)

/-- `legsDetail` (source lines 126-191): leg entries joined by a blank
line. -/
def legsDetail (legs : List Leg) : String :=
  String.intercalate "\n\n" (renderLegs 0 legs)

/-- The success-path report text (source lines 97-214). -/
def renderItinerary (best : Itinerary) : String :=
  let legs := best.legs.getD []
  "경로 요약: " ++ routeSummary legs ++ "\n"
    ++ (match durationMin best with
        | some d => "소요 시간: 약 " ++ toString d ++ "분\n"
        | none => "")
    ++ "환승: " ++ toString (best.transferCount.getD 0) ++ "회\n"
    ++ (if best.fare.getD 0 ≠ 0 then "요금: " ++ toString (best.fare.getD 0) ++ "원\n" else "")
    ++ (match distanceKmStr best with
        | some s => "총 거리: " ++ s ++ "km\n"
        | none => "")
    ++ (if best.totalWalkDistance.getD 0 ≠ 0
        then "총 도보 거리: " ++ toString (best.totalWalkDistance.getD 0) ++ "m\n" else "")
    ++ (match walkTimeMin best with
        | some w => "총 도보 시간: 약 " ++ toString w ++ "분\n"
        | none => "")
    ++ "\n[상세 경유지]\n" ++ legsDetail legs

/-- The fixed not-found sentence (source line 90). -/
def notFoundText : String := "경로를 찾을 수 없습니다."

/-- The fixed failure line head (source line 225). -/
def failHead : String := "대중교통 경로 조회 실패: "

/-- `TransitApiTool.execute` after the HTTP call: the input is either the
parsed response or the thrown error's message (the `catch` of source
lines 215-229); the output is the single text of the returned content.
Lines 84-95: missing `plan`, missing `itineraries`, or an empty
`itineraries` array yield the not-found sentence; otherwise the first
itinerary is rendered. -/
def runTransit : Except String RawResponse → String
  | .error msg => failHead ++ msg
  | .ok r =>
      match r.plan with
      | none => notFoundText
      | some p =>
          match p.itineraries with
          | none => notFoundText
          | some [] => notFoundText
          | some (best :: _) => renderItinerary best

/-- Spec-side view of the metrics block: the ordered list of optional
metric lines (duration if present, transfer count always, fare only if
nonzero, total distance if present, total walk distance only if nonzero,
total walk time if present), to be concatenated in this order. -/
def metricLines (best : Itinerary) : List (Option String) :=
  [(durationMin best).map (fun d => "소요 시간: 약 " ++ toString d ++ "분\n"),
   some ("환승: " ++ toString (best.transferCount.getD 0) ++ "회\n"),
   if best.fare.getD 0 ≠ 0 then some ("요금: " ++ toString (best.fare.getD 0) ++ "원\n") else none,
   (distanceKmStr best).map (fun s => "총 거리: " ++ s ++ "km\n"),
   if best.totalWalkDistance.getD 0 ≠ 0
     then some ("총 도보 거리: " ++ toString (best.totalWalkDistance.getD 0) ++ "m\n") else none,
   (walkTimeMin best).map (fun w => "총 도보 시간: 약 " ++ toString w ++ "분\n")]

/-- Concatenation of the present lines, in list order. -/
def catOpt : List (Option String) → String
  | [] => ""
  | none :: rest => catOpt rest
  | some s :: rest => s ++ catOpt rest

/-- An itinerary that is present but has an empty `legs` array. -/
def emptyLegsItin : Itinerary :=
  { totalTime := none, transferCount := none, totalDistance := none,
    totalWalkDistance := none, totalWalkTime := none, fare := none, legs := some [] }

/-- A structurally valid response whose only itinerary has empty `legs`. -/
def emptyLegsResp : RawResponse := { plan := some { itineraries := some [emptyLegsItin] } }

/-- A transit leg with every optional field absent except the mode. -/
def bareBusLeg : Leg :=
  { mode := some "BUS", route := none, distance := none, sectionTime := none,
    startName := none, endName := none, steps := none, lane := none, passStops := none }

/-- A plain WALK leg used to instantiate the WALK-leg theorems. -/
def walkLeg : Leg :=
  { mode := some "WALK", route := none, distance := some 300, sectionTime := some 240,
    startName := some "A", endName := some "B", steps := none, lane := none, passStops := none }

/-- A lane entry that is currently operating. -/
def opLane : Lane := { route := some "146번", type := some "11", service := some 1 }

/-- A transit leg with a nonempty `Lane` array, used to instantiate the
lane theorems. -/
def busLeg : Leg :=
  { mode := some "BUS", route := some "146", distance := some 5000, sectionTime := some 900,
    startName := some "B", endName := some "C", steps := none,
    lane := some [opLane],
    passStops := some [some "C1", some "C2"] }

/-- The itinerary of the unit-conversion scenario: 125 seconds and
1050 meters. -/
def convItin : Itinerary :=
  { totalTime := some 125, transferCount := none, totalDistance := some 1050,
    totalWalkDistance := none, totalWalkTime := none, fare := none, legs := none }

/-- The success-path text decomposes into the summary line, the metric
lines concatenated in their fixed order, and the detail block. -/
theorem renderItinerary_split (best : Itinerary) :
    renderItinerary best
      = "경로 요약: " ++ routeSummary (best.legs.getD []) ++ "\n"
        ++ catOpt (metricLines best)
        ++ "\n[상세 경유지]\n" ++ legsDetail (best.legs.getD []) := by
  apply String.ext
  cases hd : durationMin best <;> cases hk : distanceKmStr best <;> cases hw : walkTimeMin best <;>
    by_cases hf : best.fare.getD 0 = 0 <;> by_cases hwd : best.totalWalkDistance.getD 0 = 0 <;>
      simp [renderItinerary, metricLines, catOpt, hd, hk, hw, hf, hwd, String.data_append]

/-- C2: a response whose `metaData.plan` is missing, whose itineraries
list is missing, or whose itineraries list is empty yields exactly the
fixed not-found sentence, never a fabricated summary. -/
theorem c2_not_found (r : RawResponse)
    (h : r.plan = none
      ∨ ∃ p, r.plan = some p ∧ (p.itineraries = none ∨ p.itineraries = some [])) :
    runTransit (.ok r) = "경로를 찾을 수 없습니다." := by
  rcases h with h | ⟨p, hp, hi⟩
  · simp [runTransit, h, notFoundText]
  · rcases hi with hi | hi <;> simp [runTransit, hp, hi, notFoundText]

/-- C2 witness: the not-found sentence on a concrete planless response. -/
theorem c2_witness : runTransit (.ok { plan := none }) = "경로를 찾을 수 없습니다." :=
  c2_not_found { plan := none } (Or.inl rfl)

/-- C1 counterexample: a response whose only itinerary has an empty
`legs` array is not rejected; it is silently formatted as a zero-leg
report instead of the not-found sentence. -/
theorem c1_counterexample :
    runTransit (.ok emptyLegsResp) = "경로 요약: \n환승: 0회\n\n[상세 경유지]\n"
    ∧ runTransit (.ok emptyLegsResp) ≠ notFoundText := by
  constructor <;> decide

/-- C1 amended: an itinerary with an empty `legs` sequence is not
treated as malformed; extraction still selects it and the formatter
renders a report whose route-summary body and detail section are empty. -/
theorem c1_empty_legs_formatted (r : RawResponse) (p : Plan) (best : Itinerary)
    (rest : List Itinerary) (hp : r.plan = some p)
    (hi : p.itineraries = some (best :: rest)) (hl : best.legs = some []) :
    runTransit (.ok r) = renderItinerary best
    ∧ runTransit (.ok r)
        = "경로 요약: " ++ "\n" ++ catOpt (metricLines best) ++ "\n[상세 경유지]\n" := by
  have hrun : runTransit (.ok r) = renderItinerary best := by simp [runTransit, hp, hi]
  refine ⟨hrun, ?_⟩
  rw [hrun, renderItinerary_split, hl]
  simp [routeSummary, legsDetail, renderLegs, String.intercalate,
    String.append_assoc, String.append_empty, String.empty_append]

/-- C1 witness: the amended statement at the concrete empty-legs
response. -/
theorem c1_witness :
    runTransit (.ok emptyLegsResp) = renderItinerary emptyLegsItin
    ∧ runTransit (.ok emptyLegsResp)
        = "경로 요약: " ++ "\n" ++ catOpt (metricLines emptyLegsItin) ++ "\n[상세 경유지]\n" :=
  c1_empty_legs_formatted emptyLegsResp { itineraries := some [emptyLegsItin] }
    emptyLegsItin [] rfl rfl rfl

/-- C8: when the upstream call throws, the output is the fixed failure
line head followed by the error message, it contains no newline whenever
the message contains none, and the "timeout" scenario yields exactly the
expected single line; `runTransit` is total, so no fault crosses the
tool boundary. -/
theorem c8_failure_line (msg : String) :
    runTransit (.error msg) = failHead ++ msg
    ∧ ((Char.ofNat 10) ∉ msg.data → (Char.ofNat 10) ∉ (runTransit (.error msg)).data)
    ∧ runTransit (.error "timeout") = "대중교통 경로 조회 실패: timeout" := by
  refine ⟨rfl, ?_, by decide⟩
  intro h hmem
  rw [show runTransit (.error msg) = failHead ++ msg from rfl, String.data_append] at hmem
  rcases List.mem_append.mp hmem with h1 | h1
  · exact absurd h1 (by decide)
  · exact h h1

/-- C8 witness: the failure line at the concrete message "timeout". -/
theorem c8_witness :
    runTransit (.error "timeout") = failHead ++ "timeout"
    ∧ (Char.ofNat 10) ∉ (runTransit (.error "timeout")).data :=
  ⟨(c8_failure_line "timeout").1, (c8_failure_line "timeout").2.1 (by decide)⟩

/-- C4: seconds are converted to whole minutes by rounding to the
nearest integer (`roundDiv60` is within half a minute of the exact
quotient, 125 s gives 2 min, and 100 s gives 2 min where flooring would
give 1), and meters are rendered as kilometers with exactly one decimal
digit, nearest tenth (1050 m gives "1.1"); both reach the report through
`durationMin` and `distanceKmStr`. -/
theorem c4_unit_conversion :
    (∀ t : Nat, ((60 * (roundDiv60 t) : Int) - t).natAbs ≤ 30)
    ∧ roundDiv60 125 = 2
    ∧ roundDiv60 100 = 2
    ∧ (∀ m : Nat, ∃ k d : Nat, d < 10
        ∧ kmFix1 m = toString k ++ "." ++ toString d
        ∧ ((100 * (10 * k + d) : Int) - m).natAbs ≤ 50)
    ∧ kmFix1 1050 = "1.1"
    ∧ durationMin convItin = some 2
    ∧ distanceKmStr convItin = some "1.1" := by
  refine ⟨?_, by decide, by decide, ?_, by decide, by decide, by decide⟩
  · intro t
    simp only [roundDiv60]
    omega
  · intro m
    refine ⟨(m + 50) / 100 / 10, (m + 50) / 100 % 10, Nat.mod_lt _ (by omega), rfl, ?_⟩
    omega

/-- C9: a metrics field that is present but zero is rendered exactly as
if it were absent: presence of the duration, total-distance and
total-walk-time lines is decided by numeric truthiness. -/
theorem c9_zero_like_absent (best : Itinerary) :
    renderItinerary { best with totalTime := some 0 }
        = renderItinerary { best with totalTime := none }
    ∧ renderItinerary { best with totalDistance := some 0 }
        = renderItinerary { best with totalDistance := none }
    ∧ renderItinerary { best with totalWalkTime := some 0 }
        = renderItinerary { best with totalWalkTime := none } := by
  obtain ⟨tt, tc, td, twd, twt, fa, lg⟩ := best
  exact ⟨rfl, rfl, rfl⟩

/-- C10: of a nonempty `Lane` array only the first entry is rendered,
and a present-but-empty `Lane` array renders exactly as an absent one. -/
theorem c10_lane_first_entry (idx : Nat) (leg : Leg) (l1 : Lane) (rest : List Lane) :
    renderLeg idx { leg with lane := some (l1 :: rest) }
        = renderLeg idx { leg with lane := some [l1] }
    ∧ renderLeg idx { leg with lane := some [] }
        = renderLeg idx { leg with lane := none } := by
  obtain ⟨m, ro, d, st, sn, en, sp, la, ps⟩ := leg
  exact ⟨rfl, rfl⟩

/-- C5: the report is the summary line followed by the metric lines in
their fixed order (duration if present, transfer count always, fare only
if nonzero, total distance if present, total walk distance only if
nonzero, total walk time if present) followed by the detail block; and
omitted `transferCount`, `fare` and `totalWalkDistance` are rendered
exactly as the value 0. -/
theorem c5_metrics_block :
    (∀ best : Itinerary, renderItinerary best
        = "경로 요약: " ++ routeSummary (best.legs.getD []) ++ "\n"
          ++ catOpt (metricLines best)
          ++ "\n[상세 경유지]\n" ++ legsDetail (best.legs.getD []))
    ∧ (∀ best : Itinerary, renderItinerary { best with transferCount := none }
        = renderItinerary { best with transferCount := some 0 })
    ∧ (∀ best : Itinerary, renderItinerary { best with fare := none }
        = renderItinerary { best with fare := some 0 })
    ∧ (∀ best : Itinerary, renderItinerary { best with totalWalkDistance := none }
        = renderItinerary { best with totalWalkDistance := some 0 }) := by
  refine ⟨renderItinerary_split, ?_, ?_, ?_⟩ <;>
    · intro best
      obtain ⟨tt, tc, td, twd, twt, fa, lg⟩ := best
      rfl

/-- C7: the rendered detail of a WALK leg does not depend on the leg's
`route` or `Lane` data at all, so it never carries a route-label
parenthetical or lane and service-status lines. -/
theorem c7_walk_ignores_route_lane (idx : Nat) (leg : Leg) (h : leg.mode = some "WALK")
    (r : Option String) (l : Option (List Lane)) :
    renderLeg idx { leg with route := r, lane := l }
      = renderLeg idx { leg with route := none, lane := none } := by
  obtain ⟨m, ro, d, st, sn, en, sp, la, ps⟩ := leg
  obtain rfl : m = some "WALK" := h
  rfl

/-- C7 witness: a concrete WALK leg renders the same with and without
route and lane data. -/
theorem c7_witness :
    renderLeg 0 { walkLeg with route := some "146", lane := some [opLane] }
      = renderLeg 0 { walkLeg with route := none, lane := none } :=
  c7_walk_ignores_route_lane 0 walkLeg rfl (some "146") (some [opLane])

/-- C6: with `Lane` present on a transit leg, `service = 1` renders the
fixed operating literal, `service = 0` renders the fixed ended literal,
and an absent `service` renders no status line at all. -/
theorem c6_service_status (lane : Lane) (rest : List Lane) (idx : Nat) (leg : Leg)
    (hm : leg.mode ≠ some "WALK") (hl : leg.lane = some (lane :: rest)) :
    (lane.service = some 1 →
      laneServiceLine lane = "    - 운행여부: 운행중\n"
      ∧ ∃ p q, legDesc idx leg = p ++ "    - 운행여부: 운행중\n" ++ q)
    ∧ (lane.service = some 0 →
      laneServiceLine lane = "    - 운행여부: 운행종료\n"
      ∧ ∃ p q, legDesc idx leg = p ++ "    - 운행여부: 운행종료\n" ++ q)
    ∧ (lane.service = none →
      laneBlock (some (lane :: rest)) = laneRouteLine lane ++ laneTypeLine lane) := by
  refine ⟨fun hs => ⟨by simp [laneServiceLine, hs], ?_⟩,
          fun hs => ⟨by simp [laneServiceLine, hs], ?_⟩,
          fun hs => by simp [laneBlock, laneServiceLine, hs]⟩ <;>
    · refine ⟨"[" ++ toString (idx + 1) ++ "] " ++ transitFront leg
        ++ laneRouteLine lane ++ laneTypeLine lane, stationBlock leg.passStops,
        String.ext ?_⟩
      simp [legDesc, hm, transitTail, hl, laneBlock, laneServiceLine, hs, String.data_append]

/-- C6 witness: the operating status line at a concrete bus leg. -/
theorem c6_witness :
    laneServiceLine opLane = "    - 운행여부: 운행중\n"
    ∧ ∃ p q, legDesc 1 busLeg = p ++ "    - 운행여부: 운행중\n" ++ q :=
  (c6_service_status opLane [] 1 busLeg (by decide) rfl).1 rfl

/-- C3 counterexample: a transit leg whose `distance` and `sectionTime`
are missing is still emitted, but the missing distance is rendered as
the literal text "undefined" and the missing duration as 0 minutes, not
as absent fields. -/
theorem c3_counterexample :
    renderLeg 0 bareBusLeg = "[1] BUS - undefinedm, 약 0분" := by decide

/-- C3 amended: a leg with a shape mismatch is still emitted as a
numbered entry and formatting is total, but a missing `mode` or
`distance` is interpolated as the literal text "undefined", and a
missing `sectionTime` renders exactly like a zero duration (0 minutes),
rather than the field being rendered as absent. -/
theorem c3_degrade :
    (∀ (i : Nat) (ls : List Leg), (renderLegs i ls).length = ls.length)
    ∧ (∀ (idx : Nat) (leg : Leg),
        ∃ rest, legDesc idx leg = "[" ++ toString (idx + 1) ++ "] " ++ rest)
    ∧ (∀ (idx : Nat) (leg : Leg), leg.mode ≠ some "WALK" → leg.distance = none →
        ∃ p q, legDesc idx leg = p ++ "undefined" ++ q)
    ∧ (∀ (idx : Nat) (leg : Leg), leg.mode = some "WALK" → leg.distance = none →
        ∃ p q, legDesc idx leg = p ++ "undefined" ++ q)
    ∧ (∀ (idx : Nat) (leg : Leg), leg.mode = none →
        ∃ q, legDesc idx leg = "[" ++ toString (idx + 1) ++ "] " ++ "undefined" ++ q)
    ∧ (∀ (idx : Nat) (leg : Leg), legDesc idx { leg with sectionTime := none }
        = legDesc idx { leg with sectionTime := some 0 }) := by
  refine ⟨?_, ?_, ?_, ?_, ?_, ?_⟩
  · intro i ls
    induction ls generalizing i with
    | nil => rfl
    | cons a as ih => simp [renderLegs, ih]
  · intro idx leg
    exact ⟨_, rfl⟩
  · intro idx leg hm hd
    refine ⟨"[" ++ toString (idx + 1) ++ "] " ++ jsStr leg.mode ++ routePart leg ++ " - ",
      "m, 약 " ++ toString (roundDiv60 (leg.sectionTime.getD 0)) ++ "분\n"
        ++ boardLine leg ++ alightLine leg ++ laneBlock leg.lane ++ stationBlock leg.passStops,
      String.ext ?_⟩
    simp [legDesc, hm, transitTail, transitFront, hd, jsNum, String.data_append]
  · intro idx leg hm hd
    refine ⟨"[" ++ toString (idx + 1) ++ "] " ++ "도보 (",
      "m, 약 " ++ toString (roundDiv60 (leg.sectionTime.getD 0)) ++ "분)\n"
        ++ walkStartLine leg ++ walkEndLine leg ++ stepsBlock leg.steps,
      String.ext ?_⟩
    simp [legDesc, hm, walkTail, hd, jsNum, String.data_append]
  · intro idx leg hm
    refine ⟨routePart leg ++ " - " ++ jsNum leg.distance ++ "m, 약 "
        ++ toString (roundDiv60 (leg.sectionTime.getD 0)) ++ "분\n"
        ++ boardLine leg ++ alightLine leg ++ laneBlock leg.lane ++ stationBlock leg.passStops,
      String.ext ?_⟩
    have hm2 : leg.mode ≠ some "WALK" := by simp [hm]
    simp [legDesc, hm2, transitTail, transitFront, hm, jsStr, String.data_append]
  · intro idx leg
    obtain ⟨m, ro, d, st, sn, en, sp, la, ps⟩ := leg
    rfl

/-- C3 witness: the amended statement at the concrete bare bus leg. -/
theorem c3_witness : ∃ p q, legDesc 0 bareBusLeg = p ++ "undefined" ++ q :=
  c3_degrade.2.2.1 0 bareBusLeg (by decide) rfl

end TransitTool
